import Mathlib

/-!
Verification development for the gim-app real-time form-analysis engine.

The embedding mirrors, definition by definition:
* `src/lib/pose-utils.ts` — geometry primitives over `ℝ` (`Math.atan2` is
  modelled by the argument of a complex number, which has the same range
  `(-π, π]` and the same value on every input);
* `src/lib/form-checker.ts` — the squat/deadlift analyzers.  Each analyzer
  first derives numeric measurements (angles, landmark x/y coordinates) from
  the landmark frame and then runs pure threshold logic on them; the threshold
  logic is factored into a `...Core` function over an arbitrary linear ordered
  field so that it can be exercised both at `ℝ` (composed with the real
  geometry, exactly as in the source) and at `ℚ` (for executable traces);
* `src/hooks/use-form-checker.ts` — the per-session aggregation state machine.

The analyzers mutate their tracker in place in the source; here they return
the analysis paired with the updated tracker.
-/

namespace GymApp

/-- A 2-D (optionally 3-D) point, `Point` in pose-utils.ts. -/
structure Point (α : Type) where
  x : α
  y : α
  z : Option α
  deriving DecidableEq

/-- JavaScript `Math.atan2 y x`: the angle of the ray from the origin through
`(x, y)`, in `(-π, π]`, i.e. the complex argument of `x + y·i`. -/
noncomputable def atan2 (y x : ℝ) : ℝ := Complex.arg ⟨x, y⟩

/-- `calculateAngle` from pose-utils.ts: angle in degrees at vertex `b`
formed by the rays `b→a` and `b→c`. -/
noncomputable def calculateAngle (a b c : Point ℝ) : ℝ :=
  let radians := atan2 (c.y - b.y) (c.x - b.x) - atan2 (a.y - b.y) (a.x - b.x)
  let degrees := |radians * 180 / Real.pi|
  if degrees > 180 then 360 - degrees else degrees

/-- `getMidpoint` from pose-utils.ts: component-wise average; the depth
component is averaged only when both inputs provide it. -/
def getMidpoint {α : Type} [LinearOrderedField α] (a b : Point α) : Point α :=
  { x := (a.x + b.x) / 2
    y := (a.y + b.y) / 2
    z := match a.z, b.z with
         | some az, some bz => some ((az + bz) / 2)
         | _, _ => none }

/-- `getKneeAngle` from pose-utils.ts (hip–knee–ankle). -/
noncomputable def getKneeAngle (hip knee ankle : Point ℝ) : ℝ :=
  calculateAngle hip knee ankle

/-- `getHipAngle` from pose-utils.ts (shoulder–hip–knee). -/
noncomputable def getHipAngle (shoulder hip knee : Point ℝ) : ℝ :=
  calculateAngle shoulder hip knee

/-- `getTorsoAngle` from pose-utils.ts: angle of the hip→shoulder ray against
true vertical, probed through a synthetic point directly above the hip. -/
noncomputable def getTorsoAngle (shoulder hip : Point ℝ) : ℝ :=
  let verticalPoint : Point ℝ := { x := hip.x, y := hip.y - 1, z := none }
  calculateAngle verticalPoint hip shoulder

-- The MediaPipe landmark indices read by the engine (the LANDMARKS table in
-- pose-utils.ts; only shoulders, hips, knees and ankles are consumed).
namespace LANDMARKS

def LEFT_SHOULDER : Nat := 11
def RIGHT_SHOULDER : Nat := 12
def LEFT_HIP : Nat := 23
def RIGHT_HIP : Nat := 24
def LEFT_KNEE : Nat := 25
def RIGHT_KNEE : Nat := 26
def LEFT_ANKLE : Nat := 27
def RIGHT_ANKLE : Nat := 28

end LANDMARKS

/-- `Exercise` in form-checker.ts: the closed two-value enumeration. -/
inductive Exercise where
  | squat
  | deadlift
  deriving DecidableEq

/-- `FormIssue` in form-checker.ts: the fixed vocabulary of technique defects. -/
inductive FormIssue where
  | knees_caving
  | not_deep_enough
  | too_deep
  | forward_lean
  | rounded_back
  | knees_too_far_forward
  | lockout_incomplete
  deriving DecidableEq

/-- `Phase` in form-checker.ts. -/
inductive Phase where
  | standing
  | descending
  | bottom
  | ascending
  deriving DecidableEq

/-- `FormAnalysis` in form-checker.ts, over the numeric type of the angles. -/
structure FormAnalysis (α : Type) where
  isGoodForm : Bool
  issues : List FormIssue
  phase : Phase
  repCompleted : Bool
  kneeAngle : α
  hipAngle : α
  deriving DecidableEq

/-- `Landmark` in form-checker.ts: `{x, y, z?, visibility?}`. -/
structure Landmark (α : Type) where
  x : α
  y : α
  z : Option α
  visibility : Option α
  deriving DecidableEq

/-- `PhaseTracker` in form-checker.ts.  For the deadlift, `previousKneeAngle`
stores the previous hip angle (the slot is semantically repurposed). -/
structure PhaseTracker (α : Type) where
  previousPhase : Phase
  previousKneeAngle : α
  repInProgress : Bool
  bottomReached : Bool
  initialKneeAngle : Option α
  deriving DecidableEq

/-- `getLandmark` in form-checker.ts: a missing index degrades to the zero
point instead of aborting. -/
def getLandmark {α : Type} [Zero α] (landmarks : List (Landmark α))
    (index : Nat) : Point α :=
  match landmarks.get? index with
  | none => { x := 0, y := 0, z := none }
  | some lm => { x := lm.x, y := lm.y, z := lm.z }

/-- `createPhaseTracker` in form-checker.ts. -/
def createPhaseTracker {α : Type} [LinearOrderedField α] : PhaseTracker α :=
  { previousPhase := Phase.standing
    previousKneeAngle := 180
    repInProgress := false
    bottomReached := false
    initialKneeAngle := none }

/-- The per-frame numeric measurements `analyzeSquatForm` derives from the
landmark frame (lines 198–216 of form-checker.ts) before running its
threshold logic. -/
structure SquatMeasurements (α : Type) where
  kneeAngle : α
  hipAngle : α
  torsoAngle : α
  leftKnee : Point α
  rightKnee : Point α
  leftAnkle : Point α
  rightAnkle : Point α
  knee : Point α
  ankle : Point α
  deriving DecidableEq

/-- The threshold logic of `analyzeSquatForm` (lines 218–293 of
form-checker.ts), on the measurements derived from the frame.  Thresholds are
`SQUAT_THRESHOLDS`: standing 165, bottom max 100, bottom min 70, forward lean
45, knee cave 0.05, knees-forward 0.15. -/
def analyzeSquatCore {α : Type} [LinearOrderedField α]
    (m : SquatMeasurements α) (tracker : PhaseTracker α) :
    FormAnalysis α × PhaseTracker α :=
  -- phase determination, first match wins, with in-branch tracker updates
  let step1 : Phase × Bool × PhaseTracker α :=
    if m.kneeAngle ≥ 165 then
      if tracker.bottomReached && tracker.repInProgress then
        (Phase.standing, true,
          { tracker with repInProgress := false, bottomReached := false })
      else
        (Phase.standing, false, tracker)
    else if m.kneeAngle ≤ 100 then
      (Phase.bottom, false,
        { tracker with bottomReached := true, repInProgress := true })
    else if m.kneeAngle < tracker.previousKneeAngle then
      -- the source sets repInProgress only when it was false; same result
      (Phase.descending, false, { tracker with repInProgress := true })
    else
      (Phase.ascending, false, tracker)
  let phase := step1.1
  let repCompleted := step1.2.1
  let t1 := step1.2.2
  let issues : List FormIssue :=
    (if phase = Phase.bottom then
       if m.kneeAngle > 100 then [FormIssue.not_deep_enough]
       else if m.kneeAngle < 70 then [FormIssue.too_deep]
       else []
     else []) ++
    (if phase ≠ Phase.standing ∧
        |(m.leftKnee.x - m.leftAnkle.x) - (m.rightKnee.x - m.rightAnkle.x)|
          > 5 / 100 then
       [FormIssue.knees_caving] else []) ++
    (if phase ≠ Phase.standing ∧ m.torsoAngle > 45 then
       [FormIssue.forward_lean] else []) ++
    (if (phase = Phase.bottom ∨ phase = Phase.descending) ∧
        |m.knee.x - m.ankle.x| > 15 / 100 then
       [FormIssue.knees_too_far_forward] else [])
  let t2 := { t1 with previousPhase := phase, previousKneeAngle := m.kneeAngle }
  ({ isGoodForm := issues.isEmpty
     issues := issues
     phase := phase
     repCompleted := repCompleted
     kneeAngle := m.kneeAngle
     hipAngle := m.hipAngle }, t2)

/-- `analyzeSquatForm` from form-checker.ts: derive midpoints and angles from
the landmark frame, then run the squat threshold logic. -/
noncomputable def analyzeSquatForm (landmarks : List (Landmark ℝ))
    (tracker : PhaseTracker ℝ) : FormAnalysis ℝ × PhaseTracker ℝ :=
  let leftShoulder := getLandmark landmarks LANDMARKS.LEFT_SHOULDER
  let rightShoulder := getLandmark landmarks LANDMARKS.RIGHT_SHOULDER
  let leftHip := getLandmark landmarks LANDMARKS.LEFT_HIP
  let rightHip := getLandmark landmarks LANDMARKS.RIGHT_HIP
  let leftKnee := getLandmark landmarks LANDMARKS.LEFT_KNEE
  let rightKnee := getLandmark landmarks LANDMARKS.RIGHT_KNEE
  let leftAnkle := getLandmark landmarks LANDMARKS.LEFT_ANKLE
  let rightAnkle := getLandmark landmarks LANDMARKS.RIGHT_ANKLE
  let shoulder := getMidpoint leftShoulder rightShoulder
  let hip := getMidpoint leftHip rightHip
  let knee := getMidpoint leftKnee rightKnee
  let ankle := getMidpoint leftAnkle rightAnkle
  analyzeSquatCore
    { kneeAngle := getKneeAngle hip knee ankle
      hipAngle := getHipAngle shoulder hip knee
      torsoAngle := getTorsoAngle shoulder hip
      leftKnee := leftKnee
      rightKnee := rightKnee
      leftAnkle := leftAnkle
      rightAnkle := rightAnkle
      knee := knee
      ankle := ankle } tracker

/-- The per-frame numeric measurements `analyzeDeadliftForm` derives from the
landmark frame (lines 304–321 of form-checker.ts). -/
structure DeadliftMeasurements (α : Type) where
  kneeAngle : α
  hipAngle : α
  shoulder : Point α
  hip : Point α
  deriving DecidableEq

/-- The threshold logic of `analyzeDeadliftForm` (lines 323–394 of
form-checker.ts).  Thresholds are `DEADLIFT_THRESHOLDS`: standing 165, bottom
90 (checked with a +20 margin), rounded back 30 (used as 30/100), knee travel
20. -/
def analyzeDeadliftCore {α : Type} [LinearOrderedField α]
    (m : DeadliftMeasurements α) (tracker : PhaseTracker α) :
    FormAnalysis α × PhaseTracker α :=
  -- lines 323–326: capture the baseline knee angle whenever it is null
  let t0 : PhaseTracker α :=
    match tracker.initialKneeAngle with
    | none => { tracker with initialKneeAngle := some m.kneeAngle }
    | some _ => tracker
  -- phase determination keyed off the hip angle
  let step1 : Phase × Bool × PhaseTracker α :=
    if m.hipAngle ≥ 165 then
      if t0.bottomReached && t0.repInProgress then
        (Phase.standing, true,
          { t0 with repInProgress := false, bottomReached := false,
                    initialKneeAngle := none })
      else
        (Phase.standing, false, t0)
    -- BOTTOM_HIP_ANGLE (90) plus the +20 margin, i.e. 110
    else if m.hipAngle ≤ 110 then
      (Phase.bottom, false,
        { t0 with bottomReached := true, repInProgress := true })
    else if m.hipAngle < t0.previousKneeAngle then
      (Phase.descending, false,
        if t0.repInProgress then t0
        else { t0 with repInProgress := true,
                       initialKneeAngle := some m.kneeAngle })
    else
      (Phase.ascending, false, t0)
  let phase := step1.1
  let repCompleted := step1.2.1
  let t1 := step1.2.2
  let issues : List FormIssue :=
    (if phase ≠ Phase.standing ∧ m.shoulder.y - m.hip.y > 30 / 100 then
       [FormIssue.rounded_back] else []) ++
    (match t1.initialKneeAngle with
     | some base =>
         if phase = Phase.ascending ∧ |m.kneeAngle - base| > 20 then
           [FormIssue.knees_too_far_forward]
         else []
     | none => []) ++
    -- STANDING_HIP_ANGLE (165) minus 5, i.e. 160
    (if phase = Phase.standing ∧ m.hipAngle < 160 then
       [FormIssue.lockout_incomplete] else [])
  let t2 := { t1 with previousPhase := phase, previousKneeAngle := m.hipAngle }
  ({ isGoodForm := issues.isEmpty
     issues := issues
     phase := phase
     repCompleted := repCompleted
     kneeAngle := m.kneeAngle
     hipAngle := m.hipAngle }, t2)

/-- `analyzeDeadliftForm` from form-checker.ts. -/
noncomputable def analyzeDeadliftForm (landmarks : List (Landmark ℝ))
    (tracker : PhaseTracker ℝ) : FormAnalysis ℝ × PhaseTracker ℝ :=
  let leftShoulder := getLandmark landmarks LANDMARKS.LEFT_SHOULDER
  let rightShoulder := getLandmark landmarks LANDMARKS.RIGHT_SHOULDER
  let leftHip := getLandmark landmarks LANDMARKS.LEFT_HIP
  let rightHip := getLandmark landmarks LANDMARKS.RIGHT_HIP
  let leftKnee := getLandmark landmarks LANDMARKS.LEFT_KNEE
  let rightKnee := getLandmark landmarks LANDMARKS.RIGHT_KNEE
  let leftAnkle := getLandmark landmarks LANDMARKS.LEFT_ANKLE
  let rightAnkle := getLandmark landmarks LANDMARKS.RIGHT_ANKLE
  let shoulder := getMidpoint leftShoulder rightShoulder
  let hip := getMidpoint leftHip rightHip
  let knee := getMidpoint leftKnee rightKnee
  let ankle := getMidpoint leftAnkle rightAnkle
  analyzeDeadliftCore
    { kneeAngle := getKneeAngle hip knee ankle
      hipAngle := getHipAngle shoulder hip knee
      shoulder := shoulder
      hip := hip } tracker

/-- `analyzeForm` from form-checker.ts, over the static `Exercise` type:
`if (exercise === "squat") {...} else {...}`. -/
noncomputable def analyzeForm (exercise : Exercise)
    (landmarks : List (Landmark ℝ)) (tracker : PhaseTracker ℝ) :
    FormAnalysis ℝ × PhaseTracker ℝ :=
  if exercise = Exercise.squat then analyzeSquatForm landmarks tracker
  else analyzeDeadliftForm landmarks tracker

/-- The JavaScript runtime semantics of `analyzeForm`: after type erasure the
exercise tag is an arbitrary string, and the dispatch is the very same
`if (exercise === "squat") {...} else {...}` branch. -/
noncomputable def analyzeFormRuntime (exercise : String)
    (landmarks : List (Landmark ℝ)) (tracker : PhaseTracker ℝ) :
    FormAnalysis ℝ × PhaseTracker ℝ :=
  if exercise = "squat" then analyzeSquatForm landmarks tracker
  else analyzeDeadliftForm landmarks tracker

/-- Feed a sequence of per-frame squat measurements through
`analyzeSquatCore`, threading the tracker and collecting each frame's
analysis. -/
def runSquat {α : Type} [LinearOrderedField α] :
    List (SquatMeasurements α) → PhaseTracker α →
      List (FormAnalysis α) × PhaseTracker α
  | [], t => ([], t)
  | m :: ms, t =>
      let step := analyzeSquatCore m t
      let rest := runSquat ms step.2
      (step.1 :: rest.1, rest.2)

/-- The session-aggregation state held by `useFormChecker`
(use-form-checker.ts): rep counters, the session-wide deduplicated mistake
list, and the per-repetition issue accumulator (`currentRepIssuesRef`). -/
structure SessionState where
  repCount : Nat
  goodFormCount : Nat
  badFormCount : Nat
  allMistakes : List FormIssue
  currentRepIssues : List FormIssue
  deriving DecidableEq

/-- JavaScript `Set.add`: insertion-ordered, deduplicating. -/
def addIssue (s : List FormIssue) (i : FormIssue) : List FormIssue :=
  if i ∈ s then s else s ++ [i]

/-- Add each issue of a frame to an insertion-ordered deduplicated set. -/
def addIssues (s : List FormIssue) (issues : List FormIssue) : List FormIssue :=
  issues.foldl addIssue s

/-- The state produced by `useFormChecker`'s initialisation and by `reset`. -/
def initialSessionState : SessionState :=
  { repCount := 0
    goodFormCount := 0
    badFormCount := 0
    allMistakes := []
    currentRepIssues := [] }

/-- The aggregation body of `useFormChecker.analyzeLandmarks`
(use-form-checker.ts lines 43–75), given the `FormAnalysis` computed by
`analyzeForm` for a nonempty landmark frame: accumulate the frame's issues
into the per-rep accumulator (the source guards the union by
`issues.length > 0`, which has the same effect), and on `repCompleted`
increment the counters, merge a bad rep's issues into `allMistakes`, and
clear the accumulator. -/
def analyzeLandmarksStep {α : Type} (result : FormAnalysis α)
    (s : SessionState) : SessionState :=
  let accumulated := addIssues s.currentRepIssues result.issues
  if result.repCompleted then
    if accumulated.isEmpty then
      { s with repCount := s.repCount + 1
               goodFormCount := s.goodFormCount + 1
               currentRepIssues := [] }
    else
      { s with repCount := s.repCount + 1
               badFormCount := s.badFormCount + 1
               allMistakes := addIssues s.allMistakes accumulated
               currentRepIssues := [] }
  else
    { s with currentRepIssues := accumulated }

/-- Fold `analyzeLandmarksStep` over a sequence of per-frame analyses. -/
def runSession {α : Type} (results : List (FormAnalysis α))
    (s : SessionState) : SessionState :=
  results.foldl (fun st r => analyzeLandmarksStep r st) s

/-- A rational zero point, used as a neutral filler for measurement fields
that a scenario does not exercise. -/
def pt0 : Point ℚ := ⟨0, 0, none⟩

/-- A squat measurement frame whose knee angle is `k` and whose remaining
measurements are all zero. -/
def squatFrame (k : ℚ) : SquatMeasurements ℚ :=
  { kneeAngle := k
    hipAngle := 0
    torsoAngle := 0
    leftKnee := pt0
    rightKnee := pt0
    leftAnkle := pt0
    rightAnkle := pt0
    knee := pt0
    ankle := pt0 }

/-- The all-zero landmark: a zero point at zero visibility, as delivered for
an undetected body part. -/
def zeroLm : Landmark ℝ := ⟨0, 0, some 0, some 0⟩

/-- A full 33-landmark frame in which every landmark is the zero point with
visibility 0. -/
def zeroFrame : List (Landmark ℝ) := List.replicate 33 zeroLm

/-- The real measurements every degenerate frame produces: both primary
angles 0, torso angle 90, every landmark-derived point at the origin
(`z` is `some 0` for the all-zero frame, `none` for a missing frame). -/
def degenerateSquatM (z : Option ℝ) : SquatMeasurements ℝ :=
  ⟨0, 0, 90, ⟨0, 0, z⟩, ⟨0, 0, z⟩, ⟨0, 0, z⟩, ⟨0, 0, z⟩, ⟨0, 0, z⟩, ⟨0, 0, z⟩⟩

/-- Deadlift counterpart of `degenerateSquatM`. -/
def degenerateDeadliftM (z : Option ℝ) : DeadliftMeasurements ℝ :=
  ⟨0, 0, ⟨0, 0, z⟩, ⟨0, 0, z⟩⟩

/-- A mid-repetition deadlift tracker: a bottom has been reached and the rep
is in progress, with a plausible previous hip angle of 150 and a baseline
knee angle of 100. -/
def midRepTracker : PhaseTracker ℚ :=
  { previousPhase := Phase.ascending
    previousKneeAngle := 150
    repInProgress := true
    bottomReached := true
    initialKneeAngle := some 100 }

/-- A rep-completing frame result with no issues, for aggregator scenarios. -/
def goodRepResult : FormAnalysis ℚ :=
  { isGoodForm := true
    issues := []
    phase := Phase.standing
    repCompleted := true
    kneeAngle := 170
    hipAngle := 170 }

/-- A rep-completing frame result carrying `knees_caving`. -/
def badRepResult : FormAnalysis ℚ :=
  { isGoodForm := false
    issues := [FormIssue.knees_caving]
    phase := Phase.standing
    repCompleted := true
    kneeAngle := 170
    hipAngle := 170 }

-- ======================================================================
-- Shared helper lemmas
-- ======================================================================

lemma calculateAngle_of_atan2 (a b c : Point ℝ) (u v : ℝ)
    (hc : atan2 (c.y - b.y) (c.x - b.x) = u)
    (ha : atan2 (a.y - b.y) (a.x - b.x) = v) :
    calculateAngle a b c =
      (if |(u - v) * 180 / Real.pi| > 180 then 360 - |(u - v) * 180 / Real.pi|
       else |(u - v) * 180 / Real.pi|) := by
  unfold calculateAngle
  rw [hc, ha]

lemma atan2_zero_zero : atan2 0 0 = 0 := by
  have h : ((⟨0, 0⟩ : ℂ)) = 0 := by simp [Complex.ext_iff]
  rw [atan2, h, Complex.arg_zero]

lemma atan2_neg_one_zero : atan2 (-1) 0 = -(Real.pi / 2) := by
  have h : ((⟨0, -1⟩ : ℂ)) = -Complex.I := by simp [Complex.ext_iff]
  rw [atan2, h, Complex.arg_neg_I]

lemma calculateAngle_degenerate (z1 z2 z3 : Option ℝ) :
    calculateAngle ⟨0, 0, z1⟩ ⟨0, 0, z2⟩ ⟨0, 0, z3⟩ = 0 := by
  rw [calculateAngle_of_atan2 _ _ _ 0 0] <;>
    simp [atan2_zero_zero]

lemma getTorsoAngle_degenerate (z1 z2 : Option ℝ) :
    getTorsoAngle ⟨0, 0, z1⟩ ⟨0, 0, z2⟩ = 90 := by
  have hpi := Real.pi_pos
  have key : (0 - -(Real.pi / 2)) * 180 / Real.pi = 90 := by
    field_simp
    ring
  rw [getTorsoAngle]
  rw [calculateAngle_of_atan2 _ _ _ 0 (-(Real.pi / 2))]
  · rw [key]
    rw [abs_of_nonneg (by norm_num : (0:ℝ) ≤ 90)]
    norm_num
  · simp [atan2_zero_zero]
  · simp [atan2_neg_one_zero]

lemma getMidpoint_degenerate (z : Option ℝ) :
    getMidpoint (⟨0, 0, z⟩ : Point ℝ) ⟨0, 0, z⟩ = ⟨0, 0, z⟩ := by
  rcases z with _ | z0 <;> simp [getMidpoint]

lemma analyzeSquatForm_zeroFrame (t : PhaseTracker ℝ) :
    analyzeSquatForm zeroFrame t = analyzeSquatCore (degenerateSquatM (some 0)) t := by
  have hmid := getMidpoint_degenerate (some 0)
  simp only [analyzeSquatForm]
  rw [show getLandmark zeroFrame LANDMARKS.LEFT_SHOULDER = ⟨0, 0, some 0⟩ from rfl,
      show getLandmark zeroFrame LANDMARKS.RIGHT_SHOULDER = ⟨0, 0, some 0⟩ from rfl,
      show getLandmark zeroFrame LANDMARKS.LEFT_HIP = ⟨0, 0, some 0⟩ from rfl,
      show getLandmark zeroFrame LANDMARKS.RIGHT_HIP = ⟨0, 0, some 0⟩ from rfl,
      show getLandmark zeroFrame LANDMARKS.LEFT_KNEE = ⟨0, 0, some 0⟩ from rfl,
      show getLandmark zeroFrame LANDMARKS.RIGHT_KNEE = ⟨0, 0, some 0⟩ from rfl,
      show getLandmark zeroFrame LANDMARKS.LEFT_ANKLE = ⟨0, 0, some 0⟩ from rfl,
      show getLandmark zeroFrame LANDMARKS.RIGHT_ANKLE = ⟨0, 0, some 0⟩ from rfl,
      hmid]
  rw [getKneeAngle, getHipAngle]
  rw [calculateAngle_degenerate, getTorsoAngle_degenerate]
  rfl

lemma analyzeSquatForm_nilFrame (t : PhaseTracker ℝ) :
    analyzeSquatForm [] t = analyzeSquatCore (degenerateSquatM none) t := by
  have hmid := getMidpoint_degenerate none
  simp only [analyzeSquatForm]
  rw [show getLandmark ([] : List (Landmark ℝ)) LANDMARKS.LEFT_SHOULDER
        = ⟨0, 0, none⟩ from rfl,
      show getLandmark ([] : List (Landmark ℝ)) LANDMARKS.RIGHT_SHOULDER
        = ⟨0, 0, none⟩ from rfl,
      show getLandmark ([] : List (Landmark ℝ)) LANDMARKS.LEFT_HIP
        = ⟨0, 0, none⟩ from rfl,
      show getLandmark ([] : List (Landmark ℝ)) LANDMARKS.RIGHT_HIP
        = ⟨0, 0, none⟩ from rfl,
      show getLandmark ([] : List (Landmark ℝ)) LANDMARKS.LEFT_KNEE
        = ⟨0, 0, none⟩ from rfl,
      show getLandmark ([] : List (Landmark ℝ)) LANDMARKS.RIGHT_KNEE
        = ⟨0, 0, none⟩ from rfl,
      show getLandmark ([] : List (Landmark ℝ)) LANDMARKS.LEFT_ANKLE
        = ⟨0, 0, none⟩ from rfl,
      show getLandmark ([] : List (Landmark ℝ)) LANDMARKS.RIGHT_ANKLE
        = ⟨0, 0, none⟩ from rfl,
      hmid]
  rw [getKneeAngle, getHipAngle]
  rw [calculateAngle_degenerate, getTorsoAngle_degenerate]
  rfl

lemma analyzeDeadliftForm_zeroFrame (t : PhaseTracker ℝ) :
    analyzeDeadliftForm zeroFrame t =
      analyzeDeadliftCore (degenerateDeadliftM (some 0)) t := by
  have hmid := getMidpoint_degenerate (some 0)
  simp only [analyzeDeadliftForm]
  rw [show getLandmark zeroFrame LANDMARKS.LEFT_SHOULDER = ⟨0, 0, some 0⟩ from rfl,
      show getLandmark zeroFrame LANDMARKS.RIGHT_SHOULDER = ⟨0, 0, some 0⟩ from rfl,
      show getLandmark zeroFrame LANDMARKS.LEFT_HIP = ⟨0, 0, some 0⟩ from rfl,
      show getLandmark zeroFrame LANDMARKS.RIGHT_HIP = ⟨0, 0, some 0⟩ from rfl,
      show getLandmark zeroFrame LANDMARKS.LEFT_KNEE = ⟨0, 0, some 0⟩ from rfl,
      show getLandmark zeroFrame LANDMARKS.RIGHT_KNEE = ⟨0, 0, some 0⟩ from rfl,
      show getLandmark zeroFrame LANDMARKS.LEFT_ANKLE = ⟨0, 0, some 0⟩ from rfl,
      show getLandmark zeroFrame LANDMARKS.RIGHT_ANKLE = ⟨0, 0, some 0⟩ from rfl,
      hmid]
  rw [getKneeAngle, getHipAngle]
  rw [calculateAngle_degenerate]
  rfl

lemma analyzeDeadliftForm_nilFrame (t : PhaseTracker ℝ) :
    analyzeDeadliftForm [] t = analyzeDeadliftCore (degenerateDeadliftM none) t := by
  have hmid := getMidpoint_degenerate none
  simp only [analyzeDeadliftForm]
  rw [show getLandmark ([] : List (Landmark ℝ)) LANDMARKS.LEFT_SHOULDER
        = ⟨0, 0, none⟩ from rfl,
      show getLandmark ([] : List (Landmark ℝ)) LANDMARKS.RIGHT_SHOULDER
        = ⟨0, 0, none⟩ from rfl,
      show getLandmark ([] : List (Landmark ℝ)) LANDMARKS.LEFT_HIP
        = ⟨0, 0, none⟩ from rfl,
      show getLandmark ([] : List (Landmark ℝ)) LANDMARKS.RIGHT_HIP
        = ⟨0, 0, none⟩ from rfl,
      show getLandmark ([] : List (Landmark ℝ)) LANDMARKS.LEFT_KNEE
        = ⟨0, 0, none⟩ from rfl,
      show getLandmark ([] : List (Landmark ℝ)) LANDMARKS.RIGHT_KNEE
        = ⟨0, 0, none⟩ from rfl,
      show getLandmark ([] : List (Landmark ℝ)) LANDMARKS.LEFT_ANKLE
        = ⟨0, 0, none⟩ from rfl,
      show getLandmark ([] : List (Landmark ℝ)) LANDMARKS.RIGHT_ANKLE
        = ⟨0, 0, none⟩ from rfl,
      hmid]
  rw [getKneeAngle, getHipAngle]
  rw [calculateAngle_degenerate]
  rfl

lemma analyzeSquatCore_degenerate (z : Option ℝ) (t : PhaseTracker ℝ) :
    (analyzeSquatCore (degenerateSquatM z) t).1 =
      { isGoodForm := false
        issues := [FormIssue.too_deep, FormIssue.forward_lean]
        phase := Phase.bottom
        repCompleted := false
        kneeAngle := 0
        hipAngle := 0 } := by
  norm_num [analyzeSquatCore, degenerateSquatM]
  decide

lemma analyzeDeadliftCore_degenerate (z : Option ℝ) (t : PhaseTracker ℝ) :
    (analyzeDeadliftCore (degenerateDeadliftM z) t).1 =
      { isGoodForm := true
        issues := []
        phase := Phase.bottom
        repCompleted := false
        kneeAngle := 0
        hipAngle := 0 } := by
  rcases h : t.initialKneeAngle with _ | b <;>
    norm_num [analyzeDeadliftCore, degenerateDeadliftM, h]
  all_goals simp_all

lemma analyzeSquatCore_not_deep_enough {α : Type} [LinearOrderedField α]
    (m : SquatMeasurements α) (t : PhaseTracker α) :
    FormIssue.not_deep_enough ∉ (analyzeSquatCore m t).1.issues := by
  simp only [analyzeSquatCore]
  split_ifs <;> simp_all <;> linarith

lemma analyzeSquatCore_isGoodForm {α : Type} [LinearOrderedField α]
    (m : SquatMeasurements α) (t : PhaseTracker α) :
    (analyzeSquatCore m t).1.isGoodForm = true ↔
      (analyzeSquatCore m t).1.issues = [] := by
  simp only [analyzeSquatCore]
  exact List.isEmpty_iff

lemma analyzeDeadliftCore_isGoodForm {α : Type} [LinearOrderedField α]
    (m : DeadliftMeasurements α) (t : PhaseTracker α) :
    (analyzeDeadliftCore m t).1.isGoodForm = true ↔
      (analyzeDeadliftCore m t).1.issues = [] := by
  simp only [analyzeDeadliftCore]
  exact List.isEmpty_iff

lemma analyzeDeadliftCore_no_lockout {α : Type} [LinearOrderedField α]
    (m : DeadliftMeasurements α) (t : PhaseTracker α) :
    FormIssue.lockout_incomplete ∉ (analyzeDeadliftCore m t).1.issues := by
  simp only [analyzeDeadliftCore]
  rcases h : t.initialKneeAngle with _ | b
  all_goals simp only [h]
  all_goals split_ifs <;> simp_all <;> try linarith

lemma analyzeDeadliftCore_standing_hip {α : Type} [LinearOrderedField α]
    (m : DeadliftMeasurements α) (t : PhaseTracker α)
    (h : (analyzeDeadliftCore m t).1.phase = Phase.standing) :
    165 ≤ m.hipAngle := by
  revert h
  obtain ⟨pp, pk, rip, br, ik⟩ := t
  simp only [analyzeDeadliftCore]
  rcases ik with _ | b <;> split_ifs <;> simp_all

lemma analyzeSquatCore_high_knee {α : Type} [LinearOrderedField α]
    (m : SquatMeasurements α) (t : PhaseTracker α)
    (hk : 150 ≤ m.kneeAngle) (hb : t.bottomReached = false) :
    (analyzeSquatCore m t).1.phase ≠ Phase.bottom ∧
      (analyzeSquatCore m t).1.repCompleted = false ∧
      (analyzeSquatCore m t).2.bottomReached = false := by
  simp only [analyzeSquatCore]
  split_ifs <;> simp_all
  all_goals linarith

lemma runSquat_high_knee_aux {α : Type} [LinearOrderedField α]
    (inputs : List (SquatMeasurements α)) :
    ∀ t : PhaseTracker α, t.bottomReached = false →
      (∀ m ∈ inputs, 150 ≤ m.kneeAngle) →
      (∀ r ∈ (runSquat inputs t).1,
          r.phase ≠ Phase.bottom ∧ r.repCompleted = false) ∧
        (runSquat inputs t).2.bottomReached = false := by
  induction inputs with
  | nil => intro t ht _; simp [runSquat, ht]
  | cons m ms ih =>
      intro t ht hk
      have hstep := analyzeSquatCore_high_knee m t (hk m (by simp)) ht
      have hrest := ih (analyzeSquatCore m t).2 hstep.2.2
        (fun x hx => hk x (by simp [hx]))
      refine ⟨?_, ?_⟩
      · intro r hr
        simp only [runSquat] at hr
        rcases List.mem_cons.mp hr with h | h
        · subst h; exact ⟨hstep.1, hstep.2.1⟩
        · exact hrest.1 r h
      · simpa [runSquat] using hrest.2

lemma analyzeLandmarksStep_total {α : Type} (r : FormAnalysis α)
    (s : SessionState)
    (h : s.repCount = s.goodFormCount + s.badFormCount) :
    (analyzeLandmarksStep r s).repCount =
      (analyzeLandmarksStep r s).goodFormCount +
        (analyzeLandmarksStep r s).badFormCount := by
  simp only [analyzeLandmarksStep]
  split_ifs <;> simp_all <;> omega

lemma runSession_total_aux {α : Type} (results : List (FormAnalysis α)) :
    ∀ s : SessionState, s.repCount = s.goodFormCount + s.badFormCount →
      (runSession results s).repCount =
        (runSession results s).goodFormCount +
          (runSession results s).badFormCount := by
  induction results with
  | nil => intro s h; simpa [runSession] using h
  | cons r rs ih =>
      intro s h
      have h1 := analyzeLandmarksStep_total r s h
      simpa [runSession] using ih (analyzeLandmarksStep r s) h1

/-- C9: `calculateAngle` always lands in `[0, 180]` degrees, and is literally
the absolute difference of the two `atan2` directions converted to degrees,
reflected as `360` minus itself whenever that raw magnitude exceeds `180`. -/
theorem calculateAngle_range_and_formula (a b c : Point ℝ) :
    0 ≤ calculateAngle a b c ∧ calculateAngle a b c ≤ 180 ∧
      calculateAngle a b c =
        (if |(atan2 (c.y - b.y) (c.x - b.x) - atan2 (a.y - b.y) (a.x - b.x))
              * 180 / Real.pi| > 180 then
          360 - |(atan2 (c.y - b.y) (c.x - b.x) - atan2 (a.y - b.y) (a.x - b.x))
                  * 180 / Real.pi|
        else
          |(atan2 (c.y - b.y) (c.x - b.x) - atan2 (a.y - b.y) (a.x - b.x))
            * 180 / Real.pi|) := by
  have hpi : (0 : ℝ) < Real.pi := Real.pi_pos
  set r := atan2 (c.y - b.y) (c.x - b.x) - atan2 (a.y - b.y) (a.x - b.x) with hr
  have h1 : atan2 (c.y - b.y) (c.x - b.x) ≤ Real.pi := Complex.arg_le_pi _
  have h2 : -Real.pi < atan2 (c.y - b.y) (c.x - b.x) := Complex.neg_pi_lt_arg _
  have h3 : atan2 (a.y - b.y) (a.x - b.x) ≤ Real.pi := Complex.arg_le_pi _
  have h4 : -Real.pi < atan2 (a.y - b.y) (a.x - b.x) := Complex.neg_pi_lt_arg _
  have hrabs : |r| < 2 * Real.pi := by
    rw [abs_lt]
    constructor <;> [linarith; linarith]
  have h180 : |(180 : ℝ)| = 180 := by norm_num
  have hdeg : |r * 180 / Real.pi| = |r| * (180 / Real.pi) := by
    rw [abs_div, abs_mul, abs_of_pos hpi, h180]
    ring
  have hlt360 : |r * 180 / Real.pi| < 360 := by
    rw [hdeg]
    have h5 : |r| * (180 / Real.pi) < (2 * Real.pi) * (180 / Real.pi) := by
      apply mul_lt_mul_of_pos_right hrabs
      positivity
    calc |r| * (180 / Real.pi) < (2 * Real.pi) * (180 / Real.pi) := h5
      _ = 360 := by
          field_simp
          ring
  have hnonneg : 0 ≤ |r * 180 / Real.pi| := abs_nonneg _
  refine ⟨?_, ?_, rfl⟩
  · show 0 ≤ (if |r * 180 / Real.pi| > 180 then 360 - |r * 180 / Real.pi|
        else |r * 180 / Real.pi|)
    split <;> linarith
  · show (if |r * 180 / Real.pi| > 180 then 360 - |r * 180 / Real.pi|
        else |r * 180 / Real.pi|) ≤ 180
    split <;> linarith

-- ======================================================================
-- Claim theorems
-- ======================================================================

/-- C1 (counterexample): a deadlift frame whose computed hip angle is 155°,
arriving mid-rep (bottom reached, rep in progress), is not classified
standing, does not complete the rep, and does not yield
`lockout_incomplete`; a frame at 168° does complete the rep and also yields
no `lockout_incomplete`. -/
theorem deadlift_lockout_155_counterexample :
    ((analyzeDeadliftCore ⟨100, 155, pt0, pt0⟩ midRepTracker).1.repCompleted
        = false ∧
      (analyzeDeadliftCore ⟨100, 155, pt0, pt0⟩ midRepTracker).1.phase
        ≠ Phase.standing ∧
      FormIssue.lockout_incomplete ∉
        (analyzeDeadliftCore ⟨100, 155, pt0, pt0⟩ midRepTracker).1.issues) ∧
    ((analyzeDeadliftCore ⟨100, 168, pt0, pt0⟩ midRepTracker).1.repCompleted
        = true ∧
      FormIssue.lockout_incomplete ∉
        (analyzeDeadliftCore ⟨100, 168, pt0, pt0⟩ midRepTracker).1.issues) := by
  refine ⟨⟨by decide, by decide, ?_⟩, by decide, ?_⟩ <;>
    (norm_num [analyzeDeadliftCore, midRepTracker, pt0]; try decide)

/-- C1 (amended): on any frame the deadlift analyzer classifies as standing
the computed hip angle is at least 165°, so the `lockout_incomplete` guard
(hip angle < 160° while standing) can never fire: the issue is never
returned, for any measurements and any tracker, and hence for any landmark
frame. -/
theorem deadlift_lockout_unreachable :
    (∀ (m : DeadliftMeasurements ℚ) (t : PhaseTracker ℚ),
        FormIssue.lockout_incomplete ∉ (analyzeDeadliftCore m t).1.issues) ∧
    (∀ (m : DeadliftMeasurements ℚ) (t : PhaseTracker ℚ),
        (analyzeDeadliftCore m t).1.phase = Phase.standing →
          165 ≤ m.hipAngle) ∧
    (∀ (landmarks : List (Landmark ℝ)) (t : PhaseTracker ℝ),
        FormIssue.lockout_incomplete ∉
          (analyzeDeadliftForm landmarks t).1.issues) := by
  refine ⟨fun m t => analyzeDeadliftCore_no_lockout m t,
    fun m t h => analyzeDeadliftCore_standing_hip m t h,
    fun l t => ?_⟩
  exact analyzeDeadliftCore_no_lockout _ _

/-- C1 (witness): at hip angle 170° from a fresh tracker the frame is
standing, and the amended theorem instantiates there. -/
theorem deadlift_lockout_unreachable_witness :
    FormIssue.lockout_incomplete ∉
      (analyzeDeadliftCore ⟨100, 170, pt0, pt0⟩
        (createPhaseTracker : PhaseTracker ℚ)).1.issues ∧
    (165 : ℚ) ≤ (⟨100, 170, pt0, pt0⟩ : DeadliftMeasurements ℚ).hipAngle :=
  ⟨deadlift_lockout_unreachable.1 ⟨100, 170, pt0, pt0⟩ createPhaseTracker,
    deadlift_lockout_unreachable.2.1 ⟨100, 170, pt0, pt0⟩ createPhaseTracker
      (by decide)⟩

/-- C2: the squat analyzer can never return `not_deep_enough`: the bottom
classification requires a knee angle ≤ 100° while the check requires > 100°
at bottom, so the branch is unreachable — for any measurements, any landmark
array and any tracker state. -/
theorem squat_not_deep_enough_unreachable :
    (∀ (m : SquatMeasurements ℚ) (t : PhaseTracker ℚ),
        FormIssue.not_deep_enough ∉ (analyzeSquatCore m t).1.issues) ∧
    (∀ (landmarks : List (Landmark ℝ)) (t : PhaseTracker ℝ),
        FormIssue.not_deep_enough ∉ (analyzeSquatForm landmarks t).1.issues) := by
  refine ⟨fun m t => analyzeSquatCore_not_deep_enough m t, fun l t => ?_⟩
  exact analyzeSquatCore_not_deep_enough _ _

/-- C3 (counterexample): from a fresh tracker, a single standing deadlift
frame (hip 170°, knee 175°) — before any repetition has begun — already
stores `some 175` as the baseline knee angle, so the baseline does not
remain null on frames before a rep begins. -/
theorem deadlift_baseline_counterexample :
    (analyzeDeadliftCore ⟨175, 170, pt0, pt0⟩
        (createPhaseTracker : PhaseTracker ℚ)).2.initialKneeAngle
      = some 175 ∧
    (analyzeDeadliftCore ⟨175, 170, pt0, pt0⟩
        (createPhaseTracker : PhaseTracker ℚ)).1.phase = Phase.standing ∧
    (analyzeDeadliftCore ⟨175, 170, pt0, pt0⟩
        (createPhaseTracker : PhaseTracker ℚ)).1.repCompleted = false ∧
    (analyzeDeadliftCore ⟨175, 170, pt0, pt0⟩
        (createPhaseTracker : PhaseTracker ℚ)).2.repInProgress = false := by
  refine ⟨by decide, by decide, by decide, by decide⟩

/-- C3 (amended): the deadlift analyzer's baseline knee angle after a frame
is: null when the frame completes a rep; the frame's knee angle when the
tracker arrived with a null baseline (first frame after creation or after a
completed rep, regardless of phase) or when the frame is the descending
frame that starts the rep; otherwise unchanged. -/
theorem deadlift_baseline_characterization :
    ∀ (m : DeadliftMeasurements ℚ) (t : PhaseTracker ℚ),
      (analyzeDeadliftCore m t).2.initialKneeAngle =
        (if (analyzeDeadliftCore m t).1.repCompleted = true then none
         else if t.initialKneeAngle = none then some m.kneeAngle
         else if (analyzeDeadliftCore m t).1.phase = Phase.descending ∧
             t.repInProgress = false then some m.kneeAngle
         else t.initialKneeAngle) := by
  intro m t
  obtain ⟨pp, pk, rip, br, ik⟩ := t
  simp only [analyzeDeadliftCore]
  rcases ik with _ | b <;> split_ifs <;> simp_all

/-- C4 (counterexample): at runtime the dispatch routes the out-of-set tag
"bench" straight to the deadlift analyzer instead of rejecting the call. -/
theorem analyzeFormRuntime_bench_counterexample :
    analyzeFormRuntime "bench" zeroFrame createPhaseTracker =
      analyzeDeadliftForm zeroFrame createPhaseTracker := by
  unfold analyzeFormRuntime
  rw [if_neg (by decide)]

/-- C4 (amended): `analyzeForm`'s runtime dispatch branches solely on
equality with "squat": every other tag — including tags outside the closed
two-value set — is routed to the deadlift analyzer; the closed enumeration
is enforced only by the static type, not by any runtime rejection. -/
theorem analyzeFormRuntime_dispatch :
    (∀ (e : String) (l : List (Landmark ℝ)) (t : PhaseTracker ℝ),
        e ≠ "squat" → analyzeFormRuntime e l t = analyzeDeadliftForm l t) ∧
    (∀ (l : List (Landmark ℝ)) (t : PhaseTracker ℝ),
        analyzeFormRuntime "squat" l t = analyzeSquatForm l t) := by
  constructor
  · intro e l t h
    unfold analyzeFormRuntime
    rw [if_neg h]
  · intro l t
    unfold analyzeFormRuntime
    rw [if_pos rfl]

/-- C4 (witness): the amended dispatch theorem instantiated at the concrete
tag "bench". -/
theorem analyzeFormRuntime_dispatch_witness :
    analyzeFormRuntime "bench" [] createPhaseTracker =
      analyzeDeadliftForm [] createPhaseTracker :=
  analyzeFormRuntime_dispatch.1 "bench" [] createPhaseTracker (by decide)

/-- C5 (counterexample): the monotone knee-angle sweep
180,150,100,70,120,150,180 (180°→70°→180°) from a fresh tracker passes
through the `ascending` phase on the way up, so its phase sequence is not
standing → descending → bottom → standing. -/
theorem squat_sweep_counterexample :
    ((runSquat ([180, 150, 100, 70, 120, 150, 180].map squatFrame)
        createPhaseTracker).1.map (fun r => r.phase)) =
      [Phase.standing, Phase.descending, Phase.bottom, Phase.bottom,
       Phase.ascending, Phase.ascending, Phase.standing] ∧
    Phase.ascending ∈
      ((runSquat ([180, 150, 100, 70, 120, 150, 180].map squatFrame)
          createPhaseTracker).1.map (fun r => r.phase)) := by
  refine ⟨by decide, by decide⟩

/-- C5 (amended): a monotone 180°→70°→180° knee-angle sweep from a fresh
tracker produces contiguous phase runs standing → descending → bottom →
ascending → standing, the ascending run covering the ascent frames strictly
between 100° and 165° and absent only when a single frame jumps from ≤100°
to ≥165°; `repCompleted` is true on exactly the first standing frame after
bottom and on no other frame.  Both behaviours are exhibited: the gradual
sweep 180,150,100,70,120,150,180 and the jumping sweep 180,150,100,70,170,180. -/
theorem squat_sweep_trace :
    ((runSquat ([180, 150, 100, 70, 120, 150, 180].map squatFrame)
        createPhaseTracker).1.map (fun r => (r.phase, r.repCompleted))) =
      [(Phase.standing, false), (Phase.descending, false),
       (Phase.bottom, false), (Phase.bottom, false),
       (Phase.ascending, false), (Phase.ascending, false),
       (Phase.standing, true)] ∧
    ((runSquat ([180, 150, 100, 70, 170, 180].map squatFrame)
        createPhaseTracker).1.map (fun r => (r.phase, r.repCompleted))) =
      [(Phase.standing, false), (Phase.descending, false),
       (Phase.bottom, false), (Phase.bottom, false),
       (Phase.standing, true), (Phase.standing, false)] := by
  refine ⟨by decide, by decide⟩

/-- C6: the session aggregator keeps total = good + bad after every frame
sequence from the reset state; a repCompleted frame increments total by one
and exactly one of good (when no issue was seen since the last boundary,
the completing frame included) or bad (otherwise, merging the accumulated
issues into the deduplicated session-wide list), then clears the per-rep
accumulator; a non-completing frame only accumulates its issues. -/
theorem session_aggregation_spec :
    (∀ results : List (FormAnalysis ℚ),
        (runSession results initialSessionState).repCount =
          (runSession results initialSessionState).goodFormCount +
            (runSession results initialSessionState).badFormCount) ∧
    (∀ (r : FormAnalysis ℚ) (s : SessionState),
        s.repCount = s.goodFormCount + s.badFormCount →
          (analyzeLandmarksStep r s).repCount =
            (analyzeLandmarksStep r s).goodFormCount +
              (analyzeLandmarksStep r s).badFormCount) ∧
    (∀ (r : FormAnalysis ℚ) (s : SessionState),
        ((analyzeLandmarksStep r s).repCount =
            s.repCount + (if r.repCompleted then 1 else 0)) ∧
        (r.repCompleted = true →
          (analyzeLandmarksStep r s).currentRepIssues = [] ∧
          (addIssues s.currentRepIssues r.issues = [] →
            (analyzeLandmarksStep r s).goodFormCount = s.goodFormCount + 1 ∧
            (analyzeLandmarksStep r s).badFormCount = s.badFormCount ∧
            (analyzeLandmarksStep r s).allMistakes = s.allMistakes) ∧
          (addIssues s.currentRepIssues r.issues ≠ [] →
            (analyzeLandmarksStep r s).badFormCount = s.badFormCount + 1 ∧
            (analyzeLandmarksStep r s).goodFormCount = s.goodFormCount ∧
            (analyzeLandmarksStep r s).allMistakes =
              addIssues s.allMistakes (addIssues s.currentRepIssues r.issues))) ∧
        (r.repCompleted = false →
          (analyzeLandmarksStep r s).goodFormCount = s.goodFormCount ∧
          (analyzeLandmarksStep r s).badFormCount = s.badFormCount ∧
          (analyzeLandmarksStep r s).allMistakes = s.allMistakes ∧
          (analyzeLandmarksStep r s).currentRepIssues =
            addIssues s.currentRepIssues r.issues)) := by
  refine ⟨fun results => runSession_total_aux results initialSessionState rfl,
    fun r s h => analyzeLandmarksStep_total r s h,
    fun r s => ?_⟩
  simp only [analyzeLandmarksStep]
  split_ifs <;> simp_all [List.isEmpty_iff]

/-- C6 (witness): a clean rep followed by a `knees_caving` rep from the
reset state: total 2 = good 1 + bad 1, and the step increments instantiate
concretely. -/
theorem session_aggregation_spec_witness :
    (runSession [goodRepResult, badRepResult] initialSessionState).repCount =
      (runSession [goodRepResult, badRepResult]
          initialSessionState).goodFormCount +
        (runSession [goodRepResult, badRepResult]
            initialSessionState).badFormCount ∧
    (analyzeLandmarksStep goodRepResult initialSessionState).repCount =
      (analyzeLandmarksStep goodRepResult initialSessionState).goodFormCount +
        (analyzeLandmarksStep goodRepResult initialSessionState).badFormCount ∧
    (analyzeLandmarksStep goodRepResult initialSessionState).goodFormCount =
      initialSessionState.goodFormCount + 1 ∧
    (analyzeLandmarksStep badRepResult initialSessionState).badFormCount =
      initialSessionState.badFormCount + 1 ∧
    (analyzeLandmarksStep badRepResult initialSessionState).allMistakes =
      addIssues initialSessionState.allMistakes
        (addIssues initialSessionState.currentRepIssues badRepResult.issues) :=
  ⟨session_aggregation_spec.1 [goodRepResult, badRepResult],
    session_aggregation_spec.2.1 goodRepResult initialSessionState rfl,
    (((session_aggregation_spec.2.2 goodRepResult initialSessionState).2.1
        rfl).2.1 (by decide)).1,
    (((session_aggregation_spec.2.2 badRepResult initialSessionState).2.1
        rfl).2.2 (by decide)).1,
    (((session_aggregation_spec.2.2 badRepResult initialSessionState).2.1
        rfl).2.2 (by decide)).2.2⟩

/-- C7: a squat frame sequence from a fresh tracker whose computed knee
angle never drops below 150° is never classified bottom, never sets
`bottomReached`, and never completes a repetition. -/
theorem squat_shallow_no_rep {α : Type} [LinearOrderedField α]
    (inputs : List (SquatMeasurements α))
    (h : ∀ m ∈ inputs, 150 ≤ m.kneeAngle) :
    (∀ r ∈ (runSquat inputs createPhaseTracker).1,
        r.phase ≠ Phase.bottom ∧ r.repCompleted = false) ∧
      (runSquat inputs createPhaseTracker).2.bottomReached = false :=
  runSquat_high_knee_aux inputs createPhaseTracker rfl h

/-- C7 (witness): the shallow sequence 160°, 155°, 170° from a fresh
tracker leaves `bottomReached` false. -/
theorem squat_shallow_no_rep_witness :
    (runSquat [squatFrame 160, squatFrame 155, squatFrame 170]
        createPhaseTracker).2.bottomReached = false :=
  (squat_shallow_no_rep [squatFrame 160, squatFrame 155, squatFrame 170]
      (by decide)).2

/-- C8: for both analyzers and every frame and tracker, `isGoodForm` is true
exactly when the issues list is empty. -/
theorem analyzeForm_isGoodForm_iff :
    ∀ (e : Exercise) (landmarks : List (Landmark ℝ)) (t : PhaseTracker ℝ),
      ((analyzeForm e landmarks t).1.isGoodForm = true ↔
        (analyzeForm e landmarks t).1.issues = []) := by
  intro e l t
  cases e
  · show ((analyzeSquatForm l t).1.isGoodForm = true ↔
      (analyzeSquatForm l t).1.issues = [])
    exact analyzeSquatCore_isGoodForm _ _
  · show ((analyzeDeadliftForm l t).1.isGoodForm = true ↔
      (analyzeDeadliftForm l t).1.issues = [])
    exact analyzeDeadliftCore_isGoodForm _ _

/-- C10: `analyzeForm` totally computes a `FormAnalysis` on degenerate
input: an out-of-range landmark index degrades to the zero point, and both
the all-zero 33-landmark frame (every visibility 0) and the empty frame
produce concrete, well-defined analyses for both exercises. -/
theorem analyzeForm_total_degenerate :
    (∀ (landmarks : List (Landmark ℝ)) (index : Nat),
        landmarks.length ≤ index →
          getLandmark landmarks index = ⟨0, 0, none⟩) ∧
    (analyzeForm Exercise.squat zeroFrame createPhaseTracker).1 =
      ⟨false, [FormIssue.too_deep, FormIssue.forward_lean], Phase.bottom,
        false, 0, 0⟩ ∧
    (analyzeForm Exercise.deadlift zeroFrame createPhaseTracker).1 =
      ⟨true, [], Phase.bottom, false, 0, 0⟩ ∧
    (analyzeForm Exercise.squat [] createPhaseTracker).1 =
      ⟨false, [FormIssue.too_deep, FormIssue.forward_lean], Phase.bottom,
        false, 0, 0⟩ ∧
    (analyzeForm Exercise.deadlift [] createPhaseTracker).1 =
      ⟨true, [], Phase.bottom, false, 0, 0⟩ := by
  refine ⟨?_, ?_, ?_, ?_, ?_⟩
  · intro l i h
    rw [getLandmark, List.get?_len_le h]
  · show (analyzeSquatForm zeroFrame createPhaseTracker).1 = _
    rw [analyzeSquatForm_zeroFrame]
    exact analyzeSquatCore_degenerate _ _
  · show (analyzeDeadliftForm zeroFrame createPhaseTracker).1 = _
    rw [analyzeDeadliftForm_zeroFrame]
    exact analyzeDeadliftCore_degenerate _ _
  · show (analyzeSquatForm [] createPhaseTracker).1 = _
    rw [analyzeSquatForm_nilFrame]
    exact analyzeSquatCore_degenerate _ _
  · show (analyzeDeadliftForm [] createPhaseTracker).1 = _
    rw [analyzeDeadliftForm_nilFrame]
    exact analyzeDeadliftCore_degenerate _ _

/-- C10 (witness): reading index 11 of the empty landmark list degrades to
the zero point. -/
theorem analyzeForm_total_degenerate_witness :
    getLandmark ([] : List (Landmark ℝ)) 11 = ⟨0, 0, none⟩ :=
  analyzeForm_total_degenerate.1 [] 11 (by decide)

end GymApp
